import Mathlib

/-!
Shallow embedding of `src/app.py` (Flask backend: SQLite-backed conversation
store, usage ledger, and the `/chat` orchestration route).

Modelling conventions:
- The two SQLite tables become lists of rows kept in insertion order, each
  with the AUTOINCREMENT id the table would have assigned (ids start at 1).
- `SELECT ... ORDER BY id DESC LIMIT n` is modelled by an insertion sort on
  descending id followed by `take n`, so the result is independent of the
  physical list order.
- Python floats are modelled by exact rationals (`ℚ`); `round(x, 5)` is
  modelled by round-half-to-even at five decimal digits, as Python rounds.
- The external OpenAI call and injected storage failures are parameters: an
  `LLMOutcome` stands for the result of `openai.ChatCompletion.create`
  (either the response object's fields or the raised exception's `str(e)`),
  and `Option String` fault parameters stand for an exception raised by a
  given SQLite INSERT (`none` = the insert succeeds).
-/

/-- A row of the `messages` table: (id, role, content).  The timestamp
column is not modelled; ordering is by id throughout the code. -/
structure Msg where
  id : Nat
  role : String
  content : String
deriving DecidableEq, Repr

/-- A role/content pair as returned by `get_conversation_messages` and sent
to the LLM client (the Python dict `{'role': ..., 'content': ...}`). -/
structure ChatMsg where
  role : String
  content : String
deriving DecidableEq, Repr

/-- The `messages` table plus its AUTOINCREMENT counter. -/
structure MessagesDB where
  rows : List Msg
  nextId : Nat
deriving DecidableEq, Repr

/-- A row of the `usage` table. -/
structure UsageRec where
  id : Nat
  model : String
  prompt_tokens : Nat
  completion_tokens : Nat
  total_tokens : Nat
  cost : ℚ
deriving DecidableEq, Repr

/-- The `usage` table plus its AUTOINCREMENT counter. -/
structure UsageDB where
  rows : List UsageRec
  nextId : Nat
deriving DecidableEq, Repr

/-- The whole database file `database.db`. -/
structure DB where
  messages : MessagesDB
  usage : UsageDB
deriving DecidableEq, Repr

/-- The freshly initialised database (`init_db` creates empty tables;
SQLite AUTOINCREMENT assigns 1 to the first row). -/
def emptyDB : DB := ⟨⟨[], 1⟩, ⟨[], 1⟩⟩

/-- `GPT4_PROMPT_COST_PER_1K = 0.03` from app.py. -/
def GPT4_PROMPT_COST_PER_1K : ℚ := 3 / 100

/-- `GPT4_COMPLETION_COST_PER_1K = 0.06` from app.py. -/
def GPT4_COMPLETION_COST_PER_1K : ℚ := 6 / 100

/-- Insert one row into a list kept in descending-id order. -/
def insertDescById (m : Msg) : List Msg → List Msg
  | [] => [m]
  | x :: xs => if x.id ≤ m.id then m :: x :: xs else x :: insertDescById m xs

/-- `ORDER BY id DESC`: sort the stored rows by descending id (insertion
sort), independent of the physical storage order. -/
def orderByIdDesc : List Msg → List Msg
  | [] => []
  | x :: xs => insertDescById x (orderByIdDesc xs)

/-- `get_conversation_messages(limit=10)`: `SELECT role, content FROM
messages ORDER BY id DESC LIMIT ?`, then `rows.reverse()`, then build the
role/content dicts. -/
def get_conversation_messages (db : MessagesDB) (limit : Nat) : List ChatMsg :=
  let rows := (orderByIdDesc db.rows).take limit
  rows.reverse.map (fun r => ⟨r.role, r.content⟩)

/-- `add_message_to_db(role, content)`: `INSERT INTO messages (role,
content) VALUES (?, ?)`; AUTOINCREMENT assigns the next id. -/
def add_message_to_db (db : MessagesDB) (role content : String) : MessagesDB :=
  { rows := db.rows ++ [⟨db.nextId, role, content⟩], nextId := db.nextId + 1 }

/-- `record_usage(model, prompt_tokens, completion_tokens)`: computes
`total_tokens` and `cost` and inserts one row into `usage`.  Note the code
always prices with the two GPT-4 constants, whatever `model` says. -/
def record_usage (db : DB) (model : String) (prompt_tokens completion_tokens : Nat) : DB :=
  let total_tokens := prompt_tokens + completion_tokens
  let cost := (prompt_tokens : ℚ) / 1000 * GPT4_PROMPT_COST_PER_1K +
              (completion_tokens : ℚ) / 1000 * GPT4_COMPLETION_COST_PER_1K
  { db with usage :=
      { rows := db.usage.rows ++
          [⟨db.usage.nextId, model, prompt_tokens, completion_tokens, total_tokens, cost⟩],
        nextId := db.usage.nextId + 1 } }

/-- SQL `SUM` over a column: `NULL` (`none`) when the table is empty. -/
def sqlSumNat (xs : List Nat) : Option Nat :=
  if xs.isEmpty then none else some xs.sum

/-- SQL `SUM` over a `REAL` column: `NULL` (`none`) when the table is empty. -/
def sqlSumQ (xs : List ℚ) : Option ℚ :=
  if xs.isEmpty then none else some xs.sum

/-- Python's `x if x else 0` on an integer column sum (`None` and `0` are
falsy, giving `0`). -/
def truthyOr0Nat (x : Option Nat) : Nat :=
  match x with
  | none => 0
  | some v => if v = 0 then 0 else v

/-- Python's `x if x else 0` on a real column sum. -/
def truthyOr0Q (x : Option ℚ) : ℚ :=
  match x with
  | none => 0
  | some v => if v = 0 then 0 else v

/-- Python's `round(x, 5)`: round-half-to-even at 5 decimal digits.  The
floor of `x * 100000` is `num.fdiv den` (the denominator is positive), and
`rem / den` is the fractional part left over, compared against `1/2` by
cross-multiplication. -/
def pyRound5 (x : ℚ) : ℚ :=
  let scaled := x * 100000
  let den : ℤ := (scaled.den : ℤ)
  let f : ℤ := scaled.num.fdiv den
  let rem : ℤ := scaled.num - f * den
  let r : ℤ :=
    if 2 * rem < den then f
    else if den < 2 * rem then f + 1
    else if f % 2 = 0 then f else f + 1
  (r : ℚ) / 100000

/-- The dict returned by `get_usage_summary`. -/
structure UsageSummary where
  total_prompt_tokens : Nat
  total_completion_tokens : Nat
  total_cost : ℚ
deriving DecidableEq, Repr

/-- `get_usage_summary()`: `SELECT SUM(prompt_tokens), SUM(completion_tokens),
SUM(cost) FROM usage`, substituting 0 for falsy sums, rounding the cost to
5 digits. -/
def get_usage_summary (db : DB) : UsageSummary :=
  let total_prompt := truthyOr0Nat (sqlSumNat (db.usage.rows.map (fun r => r.prompt_tokens)))
  let total_completion := truthyOr0Nat (sqlSumNat (db.usage.rows.map (fun r => r.completion_tokens)))
  let total_cost := truthyOr0Q (sqlSumQ (db.usage.rows.map (fun r => r.cost)))
  { total_prompt_tokens := total_prompt,
    total_completion_tokens := total_completion,
    total_cost := pyRound5 total_cost }

/-- The result of the single `openai.ChatCompletion.create` call made inside
`generate_chat_completion`: either the response (reply content plus the
usage counters) or the raised exception's `str(e)`. -/
inductive LLMOutcome where
  | success (content : String) (prompt_tokens completion_tokens : Nat)
  | failure (detail : String)
deriving DecidableEq, Repr

/-- `record_usage` with an injected persistence fault: `some d` means the
SQLite INSERT raises an exception whose `str(e)` is `d` (nothing is
persisted); `none` means it succeeds. -/
def record_usage_f (db : DB) (fault : Option String) (model : String)
    (prompt_tokens completion_tokens : Nat) : Except String DB :=
  match fault with
  | some d => .error d
  | none => .ok (record_usage db model prompt_tokens completion_tokens)

/-- `generate_chat_completion(messages)`: calls the API (outcome given by
`outcome`), records usage, returns the assistant content; the bare
`except Exception` turns ANY exception raised inside the `try` — the API
call or the `record_usage` insert — into the returned string
`"Error: " ++ str(e)`. -/
def generate_chat_completion (db : DB) (messages : List ChatMsg)
    (outcome : LLMOutcome) (usageFault : Option String) : DB × String :=
  match outcome with
  | .failure d => (db, "Error: " ++ d)
  | .success content p c =>
      match record_usage_f db usageFault "gpt-4" p c with
      | .error d => (db, "Error: " ++ d)
      | .ok db2 => (db2, content)

/-- The `/chat` route body after `user_input` has been extracted.
`userInsertFault = some e` means `add_message_to_db('user', ...)` raises an
exception with `str(e) = e`, which the route does not catch (Flask turns it
into a 500); nothing was persisted.  Otherwise the route appends the user
message, reads the 10-message window, calls `generate_chat_completion`,
appends the assistant reply and returns it. -/
def chat (db : DB) (user_input : String) (userInsertFault : Option String)
    (outcome : LLMOutcome) (usageFault : Option String) : DB × Except String String :=
  match userInsertFault with
  | some e => (db, .error e)
  | none =>
      let db1 : DB := { db with messages := add_message_to_db db.messages "user" user_input }
      let conversation_history := get_conversation_messages db1.messages 10
      let stepResult := generate_chat_completion db1 conversation_history outcome usageFault
      let assistant_reply := stepResult.2
      let db3 : DB := { stepResult.1 with
        messages := add_message_to_db stepResult.1.messages "assistant" assistant_reply }
      (db3, .ok assistant_reply)

/-- The full `/chat` route: `data.get('user_input', '')` on the JSON body
(modelled as a key/value list), then the route body. -/
def chatEndpoint (db : DB) (body : List (String × String))
    (userInsertFault : Option String) (outcome : LLMOutcome)
    (usageFault : Option String) : DB × Except String String :=
  let user_input := (body.lookup "user_input").getD ""
  chat db user_input userInsertFault outcome usageFault

/-- Reachability invariant of the `messages` table: row ids are strictly
increasing in storage order and all below the AUTOINCREMENT counter. -/
def MsgsValid (db : MessagesDB) : Prop :=
  db.rows.Pairwise (fun a b => a.id < b.id) ∧ ∀ m ∈ db.rows, m.id < db.nextId

instance (db : MessagesDB) : Decidable (MsgsValid db) := by
  unfold MsgsValid; infer_instance

/-- `total_tokens = prompt_tokens + completion_tokens` for every row of the
`usage` table. -/
def UsageInvariant (db : DB) : Prop :=
  ∀ r ∈ db.usage.rows, r.total_tokens = r.prompt_tokens + r.completion_tokens

instance (db : DB) : Decidable (UsageInvariant db) := by
  unfold UsageInvariant; infer_instance

/-- A sequence of `add_message_to_db` calls. -/
def appendMessages (db : MessagesDB) (entries : List (String × String)) : MessagesDB :=
  entries.foldl (fun d rc => add_message_to_db d rc.1 rc.2) db

/-- Scenario A storage state: eleven messages appended to a fresh store. -/
def scenarioA_db : MessagesDB :=
  appendMessages ⟨[], 1⟩
    [("user", "m1"), ("assistant", "m2"), ("user", "m3"), ("assistant", "m4"),
     ("user", "m5"), ("assistant", "m6"), ("user", "m7"), ("assistant", "m8"),
     ("user", "m9"), ("assistant", "m10"), ("user", "m11")]

/-! ### Helper lemmas about the message store -/

theorem insertDescById_of_lt (m : Msg) (l : List Msg) (h : ∀ x ∈ l, m.id < x.id) :
    insertDescById m l = l ++ [m] := by
  induction l with
  | nil => rfl
  | cons x xs ih =>
      have hx : m.id < x.id := h x (by simp)
      simp only [insertDescById]
      rw [if_neg (by omega), ih (fun y hy => h y (by simp [hy]))]
      rfl

theorem orderByIdDesc_of_pairwise (l : List Msg)
    (h : l.Pairwise (fun a b => a.id < b.id)) :
    orderByIdDesc l = l.reverse := by
  induction l with
  | nil => rfl
  | cons x xs ih =>
      rw [List.pairwise_cons] at h
      simp only [orderByIdDesc]
      rw [ih h.2, insertDescById_of_lt x xs.reverse
        (fun y hy => h.1 y (List.mem_reverse.mp hy))]
      simp

theorem get_conversation_messages_eq (db : MessagesDB) (n : Nat)
    (h : db.rows.Pairwise (fun a b => a.id < b.id)) :
    get_conversation_messages db n =
      (db.rows.drop (db.rows.length - n)).map (fun r => ⟨r.role, r.content⟩) := by
  simp only [get_conversation_messages]
  rw [orderByIdDesc_of_pairwise _ h]
  rw [show (db.rows.reverse.take n).reverse = db.rows.drop (db.rows.length - n) by
    rw [← List.rtake_eq_reverse_take_reverse]; rfl]

theorem msgsValid_add (db : MessagesDB) (role content : String) (h : MsgsValid db) :
    MsgsValid (add_message_to_db db role content) := by
  obtain ⟨hp, hlt⟩ := h
  constructor
  · simp only [add_message_to_db]
    rw [List.pairwise_append]
    refine ⟨hp, List.pairwise_singleton _ _, ?_⟩
    intro a ha b hb
    simp only [add_message_to_db, List.mem_singleton] at hb
    subst hb
    exact hlt a ha
  · intro m hm
    simp only [add_message_to_db, List.mem_append, List.mem_singleton] at hm
    rcases hm with hm | hm
    · exact Nat.lt_succ_of_lt (hlt m hm)
    · subst hm; simp [add_message_to_db]

theorem get_conversation_messages_length (db : MessagesDB) (n : Nat)
    (h : db.rows.Pairwise (fun a b => a.id < b.id)) :
    (get_conversation_messages db n).length = min n db.rows.length := by
  rw [get_conversation_messages_eq db n h, List.length_map, List.length_drop]
  omega

theorem appendMessages_cons (db : MessagesDB) (e : String × String)
    (es : List (String × String)) :
    appendMessages db (e :: es) = appendMessages (add_message_to_db db e.1 e.2) es := rfl

theorem appendMessages_rows_map (entries : List (String × String)) :
    ∀ db : MessagesDB,
      (appendMessages db entries).rows.map (fun r => (⟨r.role, r.content⟩ : ChatMsg)) =
        db.rows.map (fun r => ⟨r.role, r.content⟩) ++
          entries.map (fun rc => ⟨rc.1, rc.2⟩) := by
  induction entries with
  | nil => intro db; simp [appendMessages]
  | cons e es ih =>
      intro db
      rw [appendMessages_cons, ih]
      simp [add_message_to_db]

theorem appendMessages_rows_length (entries : List (String × String)) :
    ∀ db : MessagesDB,
      (appendMessages db entries).rows.length = db.rows.length + entries.length := by
  induction entries with
  | nil => intro db; simp [appendMessages]
  | cons e es ih =>
      intro db
      rw [appendMessages_cons, ih]
      simp [add_message_to_db]
      omega

theorem msgsValid_appendMessages (entries : List (String × String)) :
    ∀ db : MessagesDB, MsgsValid db → MsgsValid (appendMessages db entries) := by
  induction entries with
  | nil => intro db h; exact h
  | cons e es ih =>
      intro db h
      rw [appendMessages_cons]
      exact ih _ (msgsValid_add db e.1 e.2 h)

/-! ### Helper lemmas about the orchestration route -/

theorem chat_ok_messages (db : DB) (user_input : String) (outcome : LLMOutcome)
    (uf : Option String) :
    ∃ reply : String,
      (chat db user_input none outcome uf).2 = .ok reply ∧
      ((chat db user_input none outcome uf).1).messages =
        add_message_to_db (add_message_to_db db.messages "user" user_input)
          "assistant" reply := by
  cases outcome with
  | failure d => exact ⟨_, rfl, rfl⟩
  | success content p c => cases uf <;> exact ⟨_, rfl, rfl⟩

/-! ### Helper lemmas about rounding -/

theorem pyRound5_int_div (z : ℤ) : pyRound5 ((z : ℚ) / 100000) = (z : ℚ) / 100000 := by
  have hs : ((z : ℚ) / 100000) * 100000 = (z : ℚ) := by field_simp
  simp only [pyRound5, hs]
  simp [Rat.num_intCast, Rat.den_intCast]

theorem pyRound5_zero : pyRound5 0 = 0 := by
  have h := pyRound5_int_div 0
  simpa using h

/-! ### Claim theorems -/

/-- C1: when the external LLM call fails with detail `d`, the `/chat` turn
does not raise: it returns `"Error: " ++ d` to the caller and stores that
exact string as an `assistant` message, so the next `window(1)` read
returns it. -/
theorem chat_llm_failure_fail_soft (db : DB) (input d : String) (uf : Option String)
    (h : MsgsValid db.messages) :
    (chat db input none (.failure d) uf).2 = .ok ("Error: " ++ d) ∧
    get_conversation_messages ((chat db input none (.failure d) uf).1).messages 1 =
      [⟨"assistant", "Error: " ++ d⟩] := by
  refine ⟨rfl, ?_⟩
  have hmsgs : ((chat db input none (.failure d) uf).1).messages =
      add_message_to_db (add_message_to_db db.messages "user" input) "assistant"
        ("Error: " ++ d) := rfl
  rw [hmsgs]
  have hv := msgsValid_add _ "assistant" ("Error: " ++ d)
    (msgsValid_add _ "user" input h)
  rw [get_conversation_messages_eq _ 1 hv.1]
  have hrows : (add_message_to_db (add_message_to_db db.messages "user" input)
      "assistant" ("Error: " ++ d)).rows =
      (db.messages.rows ++ [⟨db.messages.nextId, "user", input⟩]) ++
        [⟨db.messages.nextId + 1, "assistant", "Error: " ++ d⟩] := rfl
  rw [hrows]
  rw [show ((db.messages.rows ++ [(⟨db.messages.nextId, "user", input⟩ : Msg)]) ++
        [(⟨db.messages.nextId + 1, "assistant", "Error: " ++ d⟩ : Msg)]).length - 1 =
      (db.messages.rows ++ [(⟨db.messages.nextId, "user", input⟩ : Msg)]).length by
    simp]
  rw [List.drop_left]
  rfl

/-- Witness for C1 at Scenario C: on a fresh database, failure detail
`"timeout"` makes `/chat` with input `"hi"` answer `"Error: timeout"` and
store it as the newest `assistant` message. -/
theorem chat_llm_failure_fail_soft_witness :
    MsgsValid emptyDB.messages ∧
    ((chat emptyDB "hi" none (.failure "timeout") none).2 = .ok ("Error: " ++ "timeout") ∧
      get_conversation_messages
          ((chat emptyDB "hi" none (.failure "timeout") none).1).messages 1 =
        [⟨"assistant", "Error: " ++ "timeout"⟩]) :=
  ⟨by decide, chat_llm_failure_fail_soft emptyDB "hi" "timeout" none (by decide)⟩

/-- C4: for every positive `n` and valid store of length `L`, `window(n)`
returns exactly `min n L` messages, and they are the chronological
(append-order, oldest-first) tail of the history — after 11 appends,
`window(10)` is messages 2–11 and message 1 is dropped. -/
theorem window_returns_min_chronological (db : MessagesDB) (n : Nat)
    (hn : 0 < n) (h : MsgsValid db) :
    (get_conversation_messages db n).length = min n db.rows.length ∧
    get_conversation_messages db n =
      (db.rows.drop (db.rows.length - n)).map (fun r => ⟨r.role, r.content⟩) :=
  ⟨get_conversation_messages_length db n h.1, get_conversation_messages_eq db n h.1⟩

/-- Witness for C4 at Scenario A: with eleven appended messages,
`window(10)` has `min 10 11` elements and equals the history with its first
message dropped. -/
theorem window_returns_min_chronological_witness :
    (0 < 10 ∧ MsgsValid scenarioA_db) ∧
    ((get_conversation_messages scenarioA_db 10).length = min 10 scenarioA_db.rows.length ∧
      get_conversation_messages scenarioA_db 10 =
        (scenarioA_db.rows.drop (scenarioA_db.rows.length - 10)).map
          (fun r => ⟨r.role, r.content⟩)) :=
  ⟨⟨by decide, by decide⟩,
    window_returns_min_chronological scenarioA_db 10 (by decide) (by decide)⟩

/-- C5: round-trip — starting from an empty store, appending any finite
sequence of (role, content) pairs and then reading `window(L)` (with `L`
the number of appends) returns exactly those messages in append order. -/
theorem append_window_round_trip (entries : List (String × String)) :
    get_conversation_messages (appendMessages ⟨[], 1⟩ entries) entries.length =
      entries.map (fun rc => ⟨rc.1, rc.2⟩) := by
  have hv : MsgsValid (appendMessages ⟨[], 1⟩ entries) :=
    msgsValid_appendMessages entries ⟨[], 1⟩ ⟨List.Pairwise.nil, by simp⟩
  rw [get_conversation_messages_eq _ _ hv.1]
  have hlen : (appendMessages ⟨[], 1⟩ entries).rows.length = entries.length := by
    rw [appendMessages_rows_length entries ⟨[], 1⟩]
    simp
  rw [hlen, Nat.sub_self, List.drop_zero]
  have hmap := appendMessages_rows_map entries ⟨[], 1⟩
  simpa using hmap

/-- C9: if the initial `add_message_to_db('user', ...)` raises, the `/chat`
route propagates the error to the caller at once — for every LLM outcome
and usage-fault setting the result is the same, so no window read, no LLM
call and no assistant append happen, and the stores are unchanged. -/
theorem chat_user_append_failure (db : DB) (input e : String)
    (outcome : LLMOutcome) (uf : Option String) :
    chat db input (some e) outcome uf = (db, .error e) := rfl

/-- C10: when the POST body has no `user_input` key, `data.get('user_input',
'')` substitutes the empty string: the turn runs exactly as `chat` on `""`,
and a `user` message with empty content is appended to the store. -/
theorem chat_missing_user_input (db : DB) (body : List (String × String))
    (outcome : LLMOutcome) (uf : Option String)
    (h : body.lookup "user_input" = none) :
    chatEndpoint db body none outcome uf = chat db "" none outcome uf ∧
    (⟨db.messages.nextId, "user", ""⟩ : Msg) ∈
      ((chatEndpoint db body none outcome uf).1).messages.rows := by
  have he : chatEndpoint db body none outcome uf = chat db "" none outcome uf := by
    simp [chatEndpoint, h]
  refine ⟨he, ?_⟩
  rw [he]
  obtain ⟨reply, hr, hm⟩ := chat_ok_messages db "" outcome uf
  rw [hm]
  simp [add_message_to_db]

/-- Witness for C10: a body carrying only an unrelated key behaves as input
`""` and stores the empty user message. -/
theorem chat_missing_user_input_witness :
    ([("voice", "on")] : List (String × String)).lookup "user_input" = none ∧
    (chatEndpoint emptyDB [("voice", "on")] none (.success "ok" 1 2) none =
        chat emptyDB "" none (.success "ok" 1 2) none ∧
      (⟨emptyDB.messages.nextId, "user", ""⟩ : Msg) ∈
        ((chatEndpoint emptyDB [("voice", "on")] none
            (.success "ok" 1 2) none).1).messages.rows) :=
  ⟨by decide,
    chat_missing_user_input emptyDB [("voice", "on")] (.success "ok" 1 2) none (by decide)⟩

/-- C2 counterexample: `record_usage` has no rate table and no
`UnknownModelError`.  Called with a model name absent from any rate table it
persists a record anyway, so the summary after the call differs from the
summary before it — the claim's "persists no usage record" is false. -/
theorem record_unknown_model_changes_summary :
    get_usage_summary (record_usage emptyDB "no-such-model" 500 500) ≠
      get_usage_summary emptyDB := by
  intro h
  have h2 := congrArg UsageSummary.total_prompt_tokens h
  simp [get_usage_summary, record_usage, emptyDB, sqlSumNat, truthyOr0Nat] at h2

/-- C2 amended: `record_usage(model, p, c)` succeeds for every model name —
there is no rate-table lookup — and always persists exactly one new record
priced with the fixed GPT-4 constants. -/
theorem record_any_model_persists (db : DB) (model : String) (p c : Nat) :
    (record_usage db model p c).usage.rows.length = db.usage.rows.length + 1 ∧
    (record_usage db model p c).usage.rows.getLast? =
      some ⟨db.usage.nextId, model, p, c, p + c,
        (p : ℚ) / 1000 * GPT4_PROMPT_COST_PER_1K +
          (c : ℚ) / 1000 * GPT4_COMPLETION_COST_PER_1K⟩ := by
  constructor
  · simp [record_usage]
  · simp [record_usage, List.getLast?_concat]

/-- C3 counterexample: when the LLM call succeeds with reply `"ok"` but the
usage INSERT raises, the route does NOT return the reply: the bare `except`
in `generate_chat_completion` catches the recording failure too and the
error text replaces the reply. -/
theorem usage_record_failure_not_reply :
    (chat emptyDB "hi" none (.success "ok" 3 5) (some "db locked")).2 ≠ .ok "ok" := by
  intro h
  have h2 : Except.ok (ε := String) ("Error: " ++ "db locked") = Except.ok "ok" := h
  injection h2 with h3
  exact absurd h3 (by decide)

/-- C3 amended: if usage recording fails after a successful LLM call,
nothing is raised to the caller, but the reply is replaced: the route
returns and stores `"Error: " ++ d` instead of the assistant's text, and no
usage record is persisted. -/
theorem chat_usage_record_failure_fail_soft (db : DB) (input reply d : String)
    (p c : Nat) :
    (chat db input none (.success reply p c) (some d)).2 = .ok ("Error: " ++ d) ∧
    ((chat db input none (.success reply p c) (some d)).1).usage = db.usage ∧
    ((chat db input none (.success reply p c) (some d)).1).messages =
      add_message_to_db (add_message_to_db db.messages "user" input) "assistant"
        ("Error: " ++ d) :=
  ⟨rfl, rfl, rfl⟩

theorem record_scenarioB_costs :
    (record_usage emptyDB "gpt-4" 1000 1000).usage.rows.map (fun r => r.cost) =
      [9 / 100] := by
  simp only [record_usage, emptyDB, List.nil_append, List.map_cons, List.map_nil]
  norm_num [GPT4_PROMPT_COST_PER_1K, GPT4_COMPLETION_COST_PER_1K]

/-- C6: `record_usage` prices every call as
`prompt/1000 * 0.03 + completion/1000 * 0.06`; in particular
`record("gpt-4", 1000, 1000)` persists cost `0.09` and the summary's
`total_cost` afterwards is `0.09`. -/
theorem record_cost_formula_scenarioB :
    (∀ (db : DB) (p c : Nat),
      ((record_usage db "gpt-4" p c).usage.rows.getLast?).map (fun r => r.cost) =
        some ((p : ℚ) / 1000 * GPT4_PROMPT_COST_PER_1K +
          (c : ℚ) / 1000 * GPT4_COMPLETION_COST_PER_1K)) ∧
    ((record_usage emptyDB "gpt-4" 1000 1000).usage.rows.map (fun r => r.cost) =
      [9 / 100]) ∧
    (get_usage_summary (record_usage emptyDB "gpt-4" 1000 1000)).total_cost = 9 / 100 := by
  refine ⟨fun db p c => ?_, record_scenarioB_costs, ?_⟩
  · simp [record_usage, List.getLast?_concat]
  · show pyRound5 (truthyOr0Q (sqlSumQ
      ((record_usage emptyDB "gpt-4" 1000 1000).usage.rows.map (fun r => r.cost)))) = 9 / 100
    rw [record_scenarioB_costs]
    have ht : truthyOr0Q (sqlSumQ [9 / 100]) = 9 / 100 := by
      norm_num [sqlSumQ, truthyOr0Q]
    rw [ht]
    have h9 : (9 : ℚ) / 100 = ((9000 : ℤ) : ℚ) / 100000 := by norm_num
    rw [h9]
    exact pyRound5_int_div 9000

/-- C7: `record_usage` preserves the invariant that every persisted usage
row has `total_tokens = prompt_tokens + completion_tokens` (the new row is
created with exactly that sum). -/
theorem record_preserves_total_tokens_invariant (db : DB) (model : String)
    (p c : Nat) (h : UsageInvariant db) :
    UsageInvariant (record_usage db model p c) := by
  intro r hr
  simp only [record_usage, List.mem_append, List.mem_singleton] at hr
  rcases hr with hr | hr
  · exact h r hr
  · subst hr; rfl

/-- Witness for C7: the invariant holds on the empty ledger and is kept by
a concrete `record_usage` call. -/
theorem record_preserves_total_tokens_invariant_witness :
    UsageInvariant emptyDB ∧ UsageInvariant (record_usage emptyDB "gpt-4" 2 3) :=
  ⟨by decide, record_preserves_total_tokens_invariant emptyDB "gpt-4" 2 3 (by decide)⟩

/-- C8: `get_usage_summary` on a ledger with zero persisted records returns
all-zero fields (the SQL sums are NULL, substituted by 0). -/
theorem summary_zero_records (db : DB) (h : db.usage.rows = []) :
    get_usage_summary db = ⟨0, 0, 0⟩ := by
  simp [get_usage_summary, h, sqlSumNat, sqlSumQ, truthyOr0Nat, truthyOr0Q, pyRound5_zero]

/-- Witness for C8: the fresh database has an empty usage table and an
all-zero summary. -/
theorem summary_zero_records_witness :
    emptyDB.usage.rows = [] ∧ get_usage_summary emptyDB = ⟨0, 0, 0⟩ :=
  ⟨rfl, summary_zero_records emptyDB rfl⟩
